import Mathlib

/-! Verification of the browser dashboard of the traffic-congestion-simulation
repository. The embedded code is `src/static/diagram.js` (whose 449 lines are
duplicated verbatim as the prefix of `src/unnamed/part_000`): the histogram
binning loop, the recommendation rule engine, the request/DOM lifecycle of
`runSimulation`, the chart-slot lifecycle, the comparison table, and the form
reader `getParameters`. Numbers are modelled as exact rationals; JS objects
with absent fields are modelled with `Option`. -/

namespace Traffic

/-- Severity tag of a recommendation (the `type` field of the pushed object). -/
inductive Severity
  | critical
  | warning
  | info
deriving DecidableEq

/-- Which rule produced a recommendation (identifies the `title`; the advisory
text interpolating metric values is presentational and not modelled). -/
inductive RecTitle
  | veryHighQueue
  | moderateCongestion
  | lowServiceRate
  | highWaitingTime
  | highAccidentFrequency
  | highSevereJamProb
deriving DecidableEq

/-- One element of the `recommendations` array. -/
structure Recommendation where
  severity : Severity
  title : RecTitle
deriving DecidableEq

/-- `Math.min(...data)` for a non-empty spread. Empty input is out of scope
(JS would yield `Infinity`); the claims quantify over non-empty data. -/
def listMin : List ℚ → ℚ
  | [] => 0
  | x :: xs => xs.foldl min x

/-- `Math.max(...data)` for a non-empty spread. -/
def listMax : List ℚ → ℚ
  | [] => 0
  | x :: xs => xs.foldl max x

/-- The binning loop of `createHistogram` (src/static/diagram.js:152-167):
20 bins of width `(max - min) / 20`; bin `i` counts the samples with
`x >= binStart && x < binEnd` where `binStart = min + i * binWidth` and
`binEnd = binStart + binWidth`. Only the counts array is modelled; the label
strings built with `toFixed(0)` are presentational. -/
def createHistogram (data : List ℚ) : List Nat :=
  let bins : Nat := 20
  let mn := listMin data
  let mx := listMax data
  let binWidth := (mx - mn) / (bins : ℚ)
  (List.range bins).map (fun i =>
    let binStart := mn + (i : ℚ) * binWidth
    let binEnd := binStart + binWidth
    (data.filter (fun x => decide (binStart ≤ x) && decide (x < binEnd))).length)

/-- The backend simulation summary (spec §3), all fields present. -/
structure SimulationResult where
  avg_max_queue : ℚ
  avg_waiting_time : ℚ
  avg_service_rate : ℚ
  avg_accidents_per_hour : ℚ
  traffic_level : String
  traffic_level_description : String
  prob_light_traffic : ℚ
  prob_moderate_jam : ℚ
  prob_severe_jam : ℚ
  all_max_queues : List ℚ
  sample_queue_history : List ℚ
deriving DecidableEq

/-- The `recommendations` array built by `generateRecommendations`
(src/static/diagram.js:257-308): an if/else-if pair on queue length followed by
four independent ifs, pushed in source order. -/
def firedRecommendations (d : SimulationResult) : List Recommendation :=
  (if d.avg_max_queue > 100 then [⟨.critical, .veryHighQueue⟩]
   else if d.avg_max_queue > 60 then [⟨.warning, .moderateCongestion⟩]
   else []) ++
  (if d.avg_service_rate < (0.7 : ℚ) then [⟨.critical, .lowServiceRate⟩] else []) ++
  (if d.avg_waiting_time > 10 then [⟨.warning, .highWaitingTime⟩] else []) ++
  (if d.avg_accidents_per_hour > 2 then [⟨.info, .highAccidentFrequency⟩] else []) ++
  (if d.prob_severe_jam > (0.2 : ℚ) then [⟨.critical, .highSevereJamProb⟩] else [])

/-- Content of the recommendations container after `generateRecommendations`
ran: either the synthetic all-clear paragraph or the fired items. -/
inductive RecommendationsView
  | allClear
  | items (recs : List Recommendation)
deriving DecidableEq

/-- The display step of `generateRecommendations`
(src/static/diagram.js:310-320): when the array is empty the container shows
the synthetic "No critical issues detected" paragraph, else the items. -/
def generateRecommendations (d : SimulationResult) : RecommendationsView :=
  let recs := firedRecommendations d
  if recs.isEmpty then .allClear else .items recs

/-- Modelled from the spec: the rule table of §4.2, six independent threshold
rules evaluated in the fixed order queue length, service rate, waiting time,
accident frequency, severe-jam probability; the moderate-congestion condition
is the two-sided `60 < avg_max_queue <= 100`. Used only to compare against
`firedRecommendations`, which is translated from the source. -/
def specRecommendations (d : SimulationResult) : List Recommendation :=
  (if d.avg_max_queue > 100 then [⟨.critical, .veryHighQueue⟩] else []) ++
  (if 60 < d.avg_max_queue ∧ d.avg_max_queue ≤ 100 then
    [⟨.warning, .moderateCongestion⟩] else []) ++
  (if d.avg_service_rate < (0.7 : ℚ) then [⟨.critical, .lowServiceRate⟩] else []) ++
  (if d.avg_waiting_time > 10 then [⟨.warning, .highWaitingTime⟩] else []) ++
  (if d.avg_accidents_per_hour > 2 then [⟨.info, .highAccidentFrequency⟩] else []) ++
  (if d.prob_severe_jam > (0.2 : ℚ) then [⟨.critical, .highSevereJamProb⟩] else [])

/-- Per-scenario summary consumed by the comparison view. -/
structure ComparisonEntry where
  avg_max_queue : ℚ
  avg_waiting_time : ℚ
  avg_service_rate : ℚ
  prob_severe_jam : ℚ
deriving DecidableEq

/-- One table row of the comparison table; cells hold the numeric values the
source interpolates (the `toFixed` text rendering is presentational). -/
structure TableRow where
  scenarioKey : String
  queueCell : ℚ
  waitCell : ℚ
  serviceCell : ℚ
  jamCell : ℚ
deriving DecidableEq

/-- `createComparisonTable` (src/static/diagram.js:421-445): one row appended
per element of `Object.entries(data)`, in iteration order. JS objects with
string keys iterate in insertion order, modelled by the association list. -/
def createComparisonTable (data : List (String × ComparisonEntry)) : List TableRow :=
  data.map (fun p =>
    { scenarioKey := p.1
      queueCell := p.2.avg_max_queue
      waitCell := p.2.avg_waiting_time
      serviceCell := p.2.avg_service_rate * 100
      jamCell := p.2.prob_severe_jam * 100 })

/-- User-interface events relevant to the request lifecycle. A `clickRun` is
only possible while the run button is enabled (a disabled DOM button emits no
click events); `clickCompare` is always possible because `compareScenarios`
(src/static/diagram.js:324-351) never disables any control. `runDone` and
`compareDone` are the `finally` blocks of an in-flight request completing or
failing. -/
inductive UiEvent
  | clickRun
  | runDone
  | clickCompare
  | compareDone
deriving DecidableEq

/-- The button state plus the number of in-flight requests of each kind. -/
structure UiState where
  runBtnDisabled : Bool
  runsInFlight : Nat
  comparesInFlight : Nat
deriving DecidableEq

/-- Page state on load: button enabled, nothing in flight. -/
def initState : UiState := ⟨false, 0, 0⟩

/-- Whether an event can occur in a state. -/
def UiEvent.enabled : UiEvent → UiState → Bool
  | .clickRun, s => !s.runBtnDisabled
  | .runDone, s => decide (0 < s.runsInFlight)
  | .clickCompare, _ => true
  | .compareDone, s => decide (0 < s.comparesInFlight)

/-- Effect of an event: `clickRun` starts a request and disables the button
(src/static/diagram.js:72-73); the `finally` block of `runSimulation`
re-enables it (line 102); `compareScenarios` starts a request without touching
any button and its `finally` block only hides the loading indicator. -/
def UiEvent.step : UiEvent → UiState → UiState
  | .clickRun, s => { s with runBtnDisabled := true, runsInFlight := s.runsInFlight + 1 }
  | .runDone, s => { s with runBtnDisabled := false, runsInFlight := s.runsInFlight - 1 }
  | .clickCompare, s => { s with comparesInFlight := s.comparesInFlight + 1 }
  | .compareDone, s => { s with comparesInFlight := s.comparesInFlight - 1 }

/-- Run a sequence of events, refusing traces with impossible events. -/
def execTrace : UiState → List UiEvent → Option UiState
  | s, [] => some s
  | s, e :: es => if e.enabled s then execTrace (e.step s) es else none

/-- Invariant of the event system: the run button is disabled exactly while a
run request is in flight, and at most one run request is in flight. -/
def UiInv (s : UiState) : Prop :=
  s.runsInFlight ≤ 1 ∧ (s.runBtnDisabled = true ↔ s.runsInFlight = 1)

/-- One module-level chart slot (`histogramChart`, `timeSeriesChart` or
`comparisonChart`): `current` is the global variable, `live` the Chart
instances constructed and not yet destroyed, `nextId` a fresh id supply. -/
structure SlotState where
  current : Option Nat
  live : List Nat
  nextId : Nat
deriving DecidableEq

/-- Slot state on page load: the global is `null`, no instance exists. -/
def initSlot : SlotState := ⟨none, [], 0⟩

/-- One render of a slot (src/static/diagram.js:147-150 and 169 for the
histogram; 208-211 and 215 for the time series; 366-368 and 370 for the
comparison chart): destroy the chart held in the global, when one exists, then
construct a fresh instance and store it in the global. -/
def renderChart (s : SlotState) : SlotState :=
  let live := match s.current with
    | some c => s.live.erase c
    | none => s.live
  { current := some s.nextId, live := live ++ [s.nextId], nextId := s.nextId + 1 }

/-- Invariant of a slot: the live instances are exactly the one held by the
global, and all existing ids are below the fresh supply. -/
def SlotInv (s : SlotState) : Prop :=
  s.live = s.current.toList ∧ ∀ c ∈ s.live, c < s.nextId

/-- A simulation response payload as received: each field may be absent
(`none` models JS `undefined`). -/
structure RawData where
  avg_max_queue : Option ℚ
  avg_waiting_time : Option ℚ
  avg_service_rate : Option ℚ
  avg_accidents_per_hour : Option ℚ
  traffic_level : Option String
  traffic_level_description : Option String
  prob_light_traffic : Option ℚ
  prob_moderate_jam : Option ℚ
  prob_severe_jam : Option ℚ
  all_max_queues : Option (List ℚ)
  sample_queue_history : Option (List ℚ)
deriving DecidableEq

/-- JS `>` against a possibly-undefined field: `undefined > c` is `false`. -/
def jsGt (x : Option ℚ) (c : ℚ) : Bool :=
  match x with
  | some v => decide (c < v)
  | none => false

/-- JS `<` against a possibly-undefined field: `undefined < c` is `false`. -/
def jsLt (x : Option ℚ) (c : ℚ) : Bool :=
  match x with
  | some v => decide (v < c)
  | none => false

/-- `generateRecommendations` evaluated on a raw payload: a missing field makes
every comparison on it false, so its rules silently do not fire and no
exception is thrown (the `toFixed` calls sit inside the conditionals). -/
def firedRecommendationsRaw (d : RawData) : List Recommendation :=
  (if jsGt d.avg_max_queue 100 then [⟨.critical, .veryHighQueue⟩]
   else if jsGt d.avg_max_queue 60 then [⟨.warning, .moderateCongestion⟩]
   else []) ++
  (if jsLt d.avg_service_rate (0.7 : ℚ) then [⟨.critical, .lowServiceRate⟩] else []) ++
  (if jsGt d.avg_waiting_time 10 then [⟨.warning, .highWaitingTime⟩] else []) ++
  (if jsGt d.avg_accidents_per_hour 2 then [⟨.info, .highAccidentFrequency⟩] else []) ++
  (if jsGt d.prob_severe_jam (0.2 : ℚ) then [⟨.critical, .highSevereJamProb⟩] else [])

/-- Display step of `generateRecommendations` on a raw payload. -/
def generateRecommendationsRaw (d : RawData) : RecommendationsView :=
  let recs := firedRecommendationsRaw d
  if recs.isEmpty then .allClear else .items recs

/-- The DOM state touched by `runSimulation` and `displayResults`. Metric-card
texts are modelled by the numeric value rendered (`none` stands for the `NaN`
text a missing field renders to); chart slots hold the data last drawn. -/
structure Dom where
  loadingVisible : Bool
  resultsVisible : Bool
  comparisonVisible : Bool
  runBtnDisabled : Bool
  avgQueueText : Option ℚ
  avgWaitText : Option ℚ
  serviceRateText : Option ℚ
  trafficLevelClass : String
  trafficLevelText : String
  trafficDescText : String
  probLightWidth : Option ℚ
  probModerateWidth : Option ℚ
  probSevereWidth : Option ℚ
  histogramView : Option (List Nat)
  timeSeriesView : Option (List ℚ)
  recommendationsView : Option RecommendationsView
deriving DecidableEq

/-- `displayResults` (src/static/diagram.js:108-134) as a DOM transformer.
Returns the DOM after every write that executed, and whether the function ran
to completion (`false` = a TypeError was thrown at that point; the earlier
writes persist, as JS mutations do). Throw points, in source order: `.toFixed`
on a missing `avg_max_queue` or `avg_waiting_time`, `.toUpperCase` on a
missing `traffic_level`, the spread in `Math.min(...)` on a missing
`all_max_queues`, `.map` on a missing `sample_queue_history`. By contrast
`(undefined * 100).toFixed(1)` renders `"NaN"` without throwing, so the
service-rate and probability-bar writes happen regardless, and
`data.traffic_level` concatenated into the class string renders `undefined`
without throwing. -/
def displayResults (data : RawData) (dom0 : Dom) : Dom × Bool := Id.run do
  let mut dom := { dom0 with resultsVisible := true }
  let some q := data.avg_max_queue | return (dom, false)
  dom := { dom with avgQueueText := some q }
  let some w := data.avg_waiting_time | return (dom, false)
  dom := { dom with avgWaitText := some w }
  dom := { dom with serviceRateText := data.avg_service_rate.map (fun r => r * 100) }
  dom := { dom with trafficLevelClass :=
    "metric-card traffic-" ++ data.traffic_level.getD "undefined" }
  let some lvl := data.traffic_level | return (dom, false)
  dom := { dom with trafficLevelText := lvl.toUpper
                    trafficDescText := data.traffic_level_description.getD "undefined" }
  dom := { dom with probLightWidth := data.prob_light_traffic.map (fun p => p * 100)
                    probModerateWidth := data.prob_moderate_jam.map (fun p => p * 100)
                    probSevereWidth := data.prob_severe_jam.map (fun p => p * 100) }
  let some qs := data.all_max_queues | return (dom, false)
  dom := { dom with histogramView := some (createHistogram qs) }
  let some hist := data.sample_queue_history | return (dom, false)
  dom := { dom with timeSeriesView := some hist }
  dom := { dom with recommendationsView := some (generateRecommendationsRaw data) }
  return (dom, true)

/-- Outcome of the awaited `fetch`/`response.json()` pair: `failure` covers a
rejected fetch or an unparsable body; `payload` is a parsed body whose fields
may still be missing. -/
inductive FetchOutcome
  | failure
  | payload (data : RawData)
deriving DecidableEq

/-- `runSimulation` (src/static/diagram.js:62-105) as a DOM transformer, given
the fetch outcome: show loading and hide both result panels, disable the
button, then either hit the `catch` block (which only raises an alert) or run
`displayResults`, whose partial writes persist if it throws; the `finally`
block always hides the loading indicator and re-enables the button. -/
def runSimulation (outcome : FetchOutcome) (dom : Dom) : Dom :=
  let dom1 := { dom with loadingVisible := true, resultsVisible := false,
                         comparisonVisible := false, runBtnDisabled := true }
  let dom2 := match outcome with
    | .failure => dom1
    | .payload data => (displayResults data dom1).1
  { dom2 with loadingVisible := false, runBtnDisabled := false }

/-- The parsed values of the custom-parameter form inputs. -/
structure Form where
  scenarioSelect : String
  simCount : Int
  rushMin : Int
  rushMax : Int
  normalMin : Int
  normalMax : Int
  greenCapacity : Int
  accidentProb : ℚ
  rushDuration : Int
deriving DecidableEq

/-- The request body built for `/simulate/enhanced`. -/
structure CustomParams where
  rush_hour_rate : Int × Int
  normal_rate : Int × Int
  green_capacity_normal : Int
  green_capacity_accident : Int
  accident_probability : ℚ
  accident_duration_range : Int × Int
  rush_hour_minutes : Int
  simulation_minutes : Int
  simulations : Int
deriving DecidableEq

/-- Return value of `getParameters`: full custom body, or just the simulation
count for a preset scenario name. -/
inductive Params
  | custom (p : CustomParams)
  | preset (simulations : Int)
deriving DecidableEq

/-- `getParameters` (src/static/diagram.js:34-59); the form reads are the
parsed numeric input values of the `Form` structure. -/
def getParameters (f : Form) : Params :=
  if f.scenarioSelect = "custom" then
    .custom
      { rush_hour_rate := (f.rushMin, f.rushMax)
        normal_rate := (f.normalMin, f.normalMax)
        green_capacity_normal := f.greenCapacity
        green_capacity_accident := 2
        accident_probability := f.accidentProb / 100
        accident_duration_range := (5, 15)
        rush_hour_minutes := f.rushDuration
        simulation_minutes := 60
        simulations := f.simCount }
  else
    .preset f.simCount

/-- A concrete filled-in custom form, used to witness `getParameters` facts. -/
def sampleForm : Form :=
  ⟨"custom", 100, 20, 40, 5, 15, 8, (0.5 : ℚ), 30⟩

/-- The request body `getParameters` builds from `sampleForm`. -/
def sampleCustomParams : CustomParams :=
  ⟨(20, 40), (5, 15), 8, 2, (0.5 : ℚ) / 100, (5, 15), 30, 60, 100⟩

/-- A malformed payload: `avg_max_queue` parses but `avg_waiting_time` is
absent, so `displayResults` throws after overwriting the queue metric card. -/
def malformedPayload : RawData :=
  ⟨some 50, none, none, none, none, none, none, none, none, none, none⟩

/-- A DOM showing the results of an earlier successful run. -/
def priorDom : Dom :=
  ⟨false, true, false, false, some 1, some 2, some 3,
   "metric-card traffic-light", "LIGHT", "Light traffic", some 10, some 10,
   some 10, some [1], some [1], some .allClear⟩

/-! Helper lemmas. -/

/-- Membership in a conditional singleton list. -/
theorem mem_ite_singleton {α : Type} (a b : α) (c : Prop) [Decidable c] :
    a ∈ (if c then [b] else []) ↔ c ∧ a = b := by
  split <;> simp_all

/-- The initial page state satisfies the run-button invariant. -/
theorem uiInv_init : UiInv initState :=
  ⟨by decide, by decide⟩

/-- Every enabled event preserves the run-button invariant. -/
theorem uiInv_step (e : UiEvent) (s : UiState) (he : e.enabled s = true)
    (hs : UiInv s) : UiInv (e.step s) := by
  obtain ⟨h1, h2⟩ := hs
  cases e with
  | clickRun =>
    simp only [UiEvent.enabled, Bool.not_eq_eq_eq_not, Bool.not_true] at he
    have hr : s.runsInFlight = 0 := by
      have hne : ¬ s.runsInFlight = 1 := fun hh => by
        have hbt := h2.mpr hh
        rw [he] at hbt
        exact absurd hbt (by decide)
      omega
    refine ⟨?_, ?_⟩ <;> simp [UiEvent.step, hr]
  | runDone =>
    simp only [UiEvent.enabled, decide_eq_true_eq] at he
    have hr : s.runsInFlight = 1 := by omega
    refine ⟨?_, ?_⟩ <;> simp [UiEvent.step, hr]
  | clickCompare => exact ⟨h1, h2⟩
  | compareDone => exact ⟨h1, h2⟩

/-- The run-button invariant holds in every state reachable by a valid trace. -/
theorem uiInv_exec : ∀ (tr : List UiEvent) (s s2 : UiState),
    UiInv s → execTrace s tr = some s2 → UiInv s2 := by
  intro tr
  induction tr with
  | nil =>
    intro s s2 hs h
    simp only [execTrace, Option.some.injEq] at h
    subst h
    exact hs
  | cons e es ih =>
    intro s s2 hs h
    simp only [execTrace] at h
    by_cases hen : e.enabled s = true
    · rw [if_pos hen] at h
      exact ih (e.step s) s2 (uiInv_step e s hen hs) h
    · rw [if_neg hen] at h
      exact Option.noConfusion h

/-- The empty slot satisfies the slot invariant. -/
theorem slotInv_init : SlotInv initSlot :=
  ⟨rfl, by simp [initSlot]⟩

/-- One render preserves the slot invariant. -/
theorem slotInv_render (s : SlotState) (h : SlotInv s) : SlotInv (renderChart s) := by
  obtain ⟨h1, h2⟩ := h
  unfold SlotInv renderChart
  cases hc : s.current with
  | none =>
    rw [hc, Option.toList_none] at h1
    exact ⟨by simp [h1], by simp [h1]⟩
  | some a =>
    rw [hc, Option.toList_some] at h1
    exact ⟨by simp [h1], by simp [h1]⟩

/-- The slot invariant holds after any number of renders. -/
theorem slotInv_iterate (n : Nat) : SlotInv (renderChart^[n] initSlot) := by
  induction n with
  | zero => exact slotInv_init
  | succ n ih =>
    rw [Function.iterate_succ_apply']
    exact slotInv_render _ ih

/-! Claim theorems. -/

/-- Claim C1 (code evaluated at the failing input): on the two-sample set
`[0, 20]` the bin counts of `createHistogram` sum to 1, not to the sample
count 2 — the filter `x >= binStart && x < binEnd` excludes the maximum
sample from every bin, so the sum-equals-length invariant the spec states
fails on the code as written. -/
theorem C1_histogram_sum_undercounts :
    (createHistogram [0, 20]).sum = 1 ∧ ([(0 : ℚ), 20]).length = 2 := by
  refine ⟨?_, rfl⟩
  norm_num [createHistogram, listMin, listMax, List.range_succ, List.filter]

/-- Claim C2 (code evaluated at the failing input): on the all-equal sample
set `[5, 5, 5]` the bin width is `0`, every bin is the empty interval
`[5, 5)`, and `createHistogram` returns twenty zero counts — no sample is
placed in bin 0, contrary to the claim that all mass lands there. -/
theorem C2_equal_samples_leave_all_bins_empty :
    createHistogram [(5 : ℚ), 5, 5] = List.replicate 20 0 := by
  norm_num [createHistogram, listMin, listMax, List.range_succ, List.filter,
    List.replicate]

/-- Claim C3, counterexample: the claim that at most one simulation or
comparison request is ever in flight is false — `compareScenarios` disables
no control, so clicking compare twice puts two comparison requests in
flight. -/
theorem C3_counterexample :
    ¬ ∀ (tr : List UiEvent) (s : UiState), execTrace initState tr = some s →
      s.runsInFlight + s.comparesInFlight ≤ 1 := by
  intro h
  exact absurd
    (h [.clickCompare, .clickCompare] ⟨false, 0, 2⟩ (by decide)) (by decide)

/-- Claim C3 as amended: at most one `runSimulation` request is in flight at a
time, enforced by disabling the run button for the duration of the request;
`compareScenarios` disables no control, so no such bound holds for comparison
requests. -/
theorem C3_at_most_one_run_request (tr : List UiEvent) (s : UiState)
    (h : execTrace initState tr = some s) : s.runsInFlight ≤ 1 :=
  (uiInv_exec tr initState s uiInv_init h).1

/-- Claim C3 witness: after a concrete click of the run button, one run
request is in flight, within the proved bound. -/
theorem C3_at_most_one_run_request_witness :
    execTrace initState [UiEvent.clickRun] = some ⟨true, 1, 0⟩ ∧
    (⟨true, 1, 0⟩ : UiState).runsInFlight ≤ 1 :=
  ⟨rfl, C3_at_most_one_run_request [UiEvent.clickRun] ⟨true, 1, 0⟩ rfl⟩

/-- Claim C4: for a result with `avg_max_queue` exactly 100, the
recommendations contain the moderate-congestion warning and not the
very-high-queue critical item — the `> 100` boundary is exclusive and the
else-branch `> 60` fires. -/
theorem C4_queue_boundary_100 (d : SimulationResult)
    (h : d.avg_max_queue = 100) :
    (⟨.warning, .moderateCongestion⟩ : Recommendation) ∈ firedRecommendations d ∧
    (⟨.critical, .veryHighQueue⟩ : Recommendation) ∉ firedRecommendations d := by
  simp only [firedRecommendations, h]
  norm_num [List.mem_append, mem_ite_singleton]
  exact ⟨fun hs => Severity.noConfusion hs, fun _ hh => RecTitle.noConfusion hh,
    fun _ hs => Severity.noConfusion hs, fun _ hs => Severity.noConfusion hs,
    fun _ hh => RecTitle.noConfusion hh⟩

/-- Claim C4 witness: the boundary fact evaluated at a concrete result with
`avg_max_queue = 100`. -/
theorem C4_queue_boundary_100_witness :
    (⟨.warning, .moderateCongestion⟩ : Recommendation) ∈
      firedRecommendations ⟨100, 0, 1, 0, "light", "", 0, 0, 0, [], []⟩ ∧
    (⟨.critical, .veryHighQueue⟩ : Recommendation) ∉
      firedRecommendations ⟨100, 0, 1, 0, "light", "", 0, 0, 0, [], []⟩ :=
  C4_queue_boundary_100 _ rfl

/-- Claim C5: the recommendations array built by the source equals, for every
result, the one produced by evaluating the spec's six independent threshold
rules in the fixed order queue length, service rate, waiting time, accident
frequency, severe-jam probability — each rule fires exactly when its own
condition holds and no rule short-circuits another. -/
theorem C5_rules_fire_independently_in_order (d : SimulationResult) :
    firedRecommendations d = specRecommendations d := by
  unfold firedRecommendations specRecommendations
  by_cases h1 : d.avg_max_queue > 100
  · have h2 : ¬ (60 < d.avg_max_queue ∧ d.avg_max_queue ≤ 100) :=
      fun hh => absurd hh.2 (not_le.mpr h1)
    simp [h1, h2]
  · by_cases h3 : d.avg_max_queue > 60
    · have h2 : 60 < d.avg_max_queue ∧ d.avg_max_queue ≤ 100 :=
        ⟨h3, le_of_not_lt h1⟩
      simp [h1, h2, h3]
    · have h2 : ¬ (60 < d.avg_max_queue ∧ d.avg_max_queue ≤ 100) :=
        fun hh => h3 hh.1
      simp [h1, h2, h3]

/-- Claim C6: when no threshold rule fires, `generateRecommendations` shows
the single synthetic all-clear outcome rather than an empty list. -/
theorem C6_all_clear_not_empty (d : SimulationResult)
    (h1 : d.avg_max_queue ≤ 60) (h2 : (0.7 : ℚ) ≤ d.avg_service_rate)
    (h3 : d.avg_waiting_time ≤ 10) (h4 : d.avg_accidents_per_hour ≤ 2)
    (h5 : d.prob_severe_jam ≤ (0.2 : ℚ)) :
    generateRecommendations d = .allClear := by
  have e : firedRecommendations d = [] := by
    have q100 : ¬ d.avg_max_queue > 100 := not_lt.mpr (h1.trans (by norm_num))
    have q60 : ¬ d.avg_max_queue > 60 := not_lt.mpr h1
    have sr : ¬ d.avg_service_rate < (0.7 : ℚ) := not_lt.mpr h2
    have wt : ¬ d.avg_waiting_time > 10 := not_lt.mpr h3
    have ac : ¬ d.avg_accidents_per_hour > 2 := not_lt.mpr h4
    have js : ¬ d.prob_severe_jam > (0.2 : ℚ) := not_lt.mpr h5
    simp [firedRecommendations, q100, q60, sr, wt, ac, js]
  simp [generateRecommendations, e]

/-- Claim C6 witness: the all-clear outcome at the spec's example metrics. -/
theorem C6_all_clear_not_empty_witness :
    generateRecommendations
      ⟨10, 2, (0.95 : ℚ), 0, "light", "", 0, 0, (0.01 : ℚ), [], []⟩ =
      .allClear :=
  C6_all_clear_not_empty _ (by norm_num) (by norm_num) (by norm_num)
    (by norm_num) (by norm_num)

/-- Claim C7: the rows of the comparison table appear in the input mapping's
iteration order — `createComparisonTable` maps over `Object.entries` without
any sort, whatever the metric values are. -/
theorem C7_comparison_table_preserves_order
    (data : List (String × ComparisonEntry)) :
    (createComparisonTable data).map TableRow.scenarioKey = data.map Prod.fst := by
  simp only [createComparisonTable, List.map_map]
  rfl

/-- Claim C8: repeated renders of one view slot never leave more than one live
chart instance attached to it: each render destroys the previous instance,
when one exists, before constructing the new one. -/
theorem C8_at_most_one_live_chart (n : Nat) :
    ((renderChart^[n]) initSlot).live.length ≤ 1 := by
  have h := (slotInv_iterate n).1
  rw [h]
  cases ((renderChart^[n]) initSlot).current <;> simp

/-- Claim C9, counterexample: a payload whose `avg_max_queue` parses but whose
`avg_waiting_time` is missing makes `displayResults` throw after the queue
metric card was already overwritten, so a failing request does not leave the
previously displayed results untouched — partial rendering occurs. -/
theorem C9_counterexample :
    (displayResults malformedPayload priorDom).2 = false ∧
    (runSimulation (.payload malformedPayload) priorDom).avgQueueText ≠
      priorDom.avgQueueText := by
  refine ⟨rfl, ?_⟩
  have e1 : (runSimulation (.payload malformedPayload) priorDom).avgQueueText =
      some 50 := rfl
  have e2 : priorDom.avgQueueText = some 1 := rfl
  rw [e1, e2]
  norm_num

/-- Claim C9 as amended: every failure path clears the loading state and
re-enables the run button, and a failure that occurs before rendering begins
(rejected fetch or unparsable body) leaves every previously displayed result
field untouched; only a parsed-but-malformed payload can fail partway through
`displayResults` and leave its earlier writes applied. -/
theorem C9_loading_cleared_and_prefetch_failure_preserves_results :
    (∀ (o : FetchOutcome) (dom : Dom),
      (runSimulation o dom).loadingVisible = false ∧
      (runSimulation o dom).runBtnDisabled = false) ∧
    (∀ dom : Dom,
      (runSimulation .failure dom).avgQueueText = dom.avgQueueText ∧
      (runSimulation .failure dom).avgWaitText = dom.avgWaitText ∧
      (runSimulation .failure dom).serviceRateText = dom.serviceRateText ∧
      (runSimulation .failure dom).trafficLevelClass = dom.trafficLevelClass ∧
      (runSimulation .failure dom).trafficLevelText = dom.trafficLevelText ∧
      (runSimulation .failure dom).trafficDescText = dom.trafficDescText ∧
      (runSimulation .failure dom).probLightWidth = dom.probLightWidth ∧
      (runSimulation .failure dom).probModerateWidth = dom.probModerateWidth ∧
      (runSimulation .failure dom).probSevereWidth = dom.probSevereWidth ∧
      (runSimulation .failure dom).histogramView = dom.histogramView ∧
      (runSimulation .failure dom).timeSeriesView = dom.timeSeriesView ∧
      (runSimulation .failure dom).recommendationsView = dom.recommendationsView) := by
  constructor
  · intro o dom
    cases o <;> exact ⟨rfl, rfl⟩
  · intro dom
    exact ⟨rfl, rfl, rfl, rfl, rfl, rfl, rfl, rfl, rfl, rfl, rfl, rfl⟩

/-- Claim C10: every custom-scenario request body built by `getParameters`
carries the constants `green_capacity_accident = 2`,
`accident_duration_range = [5, 15]` and `simulation_minutes = 60`,
independently of all form inputs. -/
theorem C10_custom_request_constants (f : Form) (p : CustomParams)
    (h : getParameters f = .custom p) :
    p.green_capacity_accident = 2 ∧ p.accident_duration_range = (5, 15) ∧
    p.simulation_minutes = 60 := by
  unfold getParameters at h
  by_cases hc : f.scenarioSelect = "custom"
  · rw [if_pos hc] at h
    injection h with h2
    subst h2
    exact ⟨rfl, rfl, rfl⟩
  · rw [if_neg hc] at h
    exact Params.noConfusion h

/-- Claim C10 witness: the constants in the body built from a concrete filled
custom form. -/
theorem C10_custom_request_constants_witness :
    sampleCustomParams.green_capacity_accident = 2 ∧
    sampleCustomParams.accident_duration_range = (5, 15) ∧
    sampleCustomParams.simulation_minutes = 60 :=
  C10_custom_request_constants sampleForm sampleCustomParams rfl

end Traffic
